import Mathlib

/-!
Verification development for the bevy_terrain chunked-clipmap streaming core.

The render-side systems `init_height_attachment` and
`queue_height_attachment_updates` (src/render/height_map.rs) are embedded
directly from the source.  The node-atlas state machine, the quadtree
best-available query and the attachment descriptor are referenced by the
specification but their defining modules are not part of the source tree;
they are modelled from the specification text and marked as such in their
doc comments.  GPU handles (textures, views, samplers, buffers, images)
are abstracted as natural-number identifiers; texture contents are
modelled at array-layer granularity.
-/

set_option autoImplicit false

/-- Quadtree node identity `(lod, x, y)` as described by the data model. -/
structure NodeId where
  lod : Nat
  x : Nat
  y : Nat
  deriving DecidableEq, Repr

/-- The fields of `TerrainConfig` used by src/render/height_map.rs:
`texture_size` (texel width/height of one attachment slot) and
`node_atlas_size` (the number of atlas slots, used as the texture array
layer count). -/
structure TerrainConfig where
  texture_size : Nat
  node_atlas_size : Nat
  deriving DecidableEq, Repr

/-- Texture formats; `R16Unorm` is the one hard-coded by
`init_height_attachment`, the others stand for alternative formats an
attachment descriptor could configure. -/
inductive TextureFormat where
  | R16Unorm
  | R8Unorm
  | Rgba8Unorm
  deriving DecidableEq, Repr

/-- wgpu-style 3d extent. -/
structure Extent3d where
  width : Nat
  height : Nat
  depth_or_array_layers : Nat
  deriving DecidableEq, Repr

/-- wgpu-style texture dimension. -/
inductive TextureDimension where
  | D1
  | D2
  | D3
  deriving DecidableEq, Repr

/-- The two usage bits set on the height atlas texture. -/
structure TextureUsages where
  copy_dst : Bool
  texture_binding : Bool
  deriving DecidableEq, Repr

/-- The descriptor a texture is created with. -/
structure TextureDescriptor where
  size : Extent3d
  mip_level_count : Nat
  sample_count : Nat
  dimension : TextureDimension
  format : TextureFormat
  usage : TextureUsages
  deriving DecidableEq, Repr

/-- A created GPU texture: an abstract handle together with the descriptor
it was created from. -/
structure GpuTexture where
  id : Nat
  desc : TextureDescriptor
  deriving DecidableEq, Repr

/-- The texture descriptor built by `init_height_attachment`
(src/render/height_map.rs lines 26-38): width and height are
`config.texture_size`, the layer count is `config.node_atlas_size`, and
the mip level count, sample count, dimension, format and usage are the
literal values written in the source. -/
def heightTextureDescriptor (config : TerrainConfig) : TextureDescriptor :=
  { size := { width := config.texture_size
              height := config.texture_size
              depth_or_array_layers := config.node_atlas_size }
    mip_level_count := 1
    sample_count := 1
    dimension := TextureDimension.D2
    format := TextureFormat.R16Unorm
    usage := { copy_dst := true, texture_binding := true } }

/-- Modelled from the spec: the `Attachment` configuration record
`{ name, texture_resolution, border_size, format, mip_levels, storage }`
(spec section 3); its defining module is not part of the source tree. -/
inductive AttachmentStorage where
  | Disk
  | Generated
  deriving DecidableEq, Repr

/-- Modelled from the spec: attachment descriptor fields, immutable after
terrain creation (spec section 3). -/
structure AttachmentConfig where
  name : String
  texture_resolution : Nat
  border_size : Nat
  format : TextureFormat
  mip_levels : Nat
  storage : AttachmentStorage
  deriving DecidableEq, Repr

/-- Association-list lookup (the `HashMap::get` of the render maps,
keyed by entity id or attachment name). -/
def assocLookup {κ α : Type} [DecidableEq κ] (m : List (κ × α)) (k : κ) : Option α :=
  match m with
  | [] => none
  | (k', v) :: rest => if k' = k then some v else assocLookup rest k

/-- Association-list insert/overwrite (the `HashMap::insert` of the render
maps). -/
def assocInsert {κ α : Type} [DecidableEq κ] (m : List (κ × α)) (k : κ) (v : α) :
    List (κ × α) :=
  match m with
  | [] => [(k, v)]
  | (k', v') :: rest =>
    if k' = k then (k, v) :: rest else (k', v') :: assocInsert rest k v

/-- The string key used for the height attachment in the source. -/
def heightmapKey : String := "heightmap"

/-- One atlas attachment: either a GPU buffer or a texture with its view
and sampler (src/render/height_map.rs `NodeAttachment`).  View and sampler
are abstract handles. -/
inductive NodeAttachment where
  | Buffer (buffer : Nat)
  | Texture (texture : GpuTexture) (view : Nat) (sampler : Nat)
  deriving DecidableEq, Repr

/-- The per-node data carried by an activated node; only the `height_map`
image handle is used by src/render/height_map.rs. -/
structure NodeData where
  height_map : Nat
  deriving DecidableEq, Repr

/-- The render-world atlas component as used by src/render/height_map.rs:
a name-keyed attachment map and the list of `(slot index, node data)`
pairs activated this frame. -/
structure GpuNodeAtlas where
  atlas_attachments : List (String × NodeAttachment)
  activated_nodes : List (Nat × NodeData)
  deriving DecidableEq, Repr

/-- A GPU image asset; only its underlying texture handle matters here. -/
structure Image where
  texture : Nat
  deriving DecidableEq, Repr

/-- wgpu-style copy origin. -/
structure Origin3d where
  x : Nat
  y : Nat
  z : Nat
  deriving DecidableEq, Repr

/-- One side of a texture-to-texture copy. -/
structure ImageCopyTexture where
  texture : Nat
  mip_level : Nat
  origin : Origin3d
  deriving DecidableEq, Repr

/-- One `copy_texture_to_texture` command recorded on the encoder. -/
structure CopyCommand where
  src : ImageCopyTexture
  dst : ImageCopyTexture
  extent : Extent3d
  deriving DecidableEq, Repr

/-- Embedding of `init_height_attachment` (src/render/height_map.rs lines
18-76): for each terrain entity in the query, create the height texture
from `heightTextureDescriptor`, look up the entity's `GpuNodeAtlas`
(`.unwrap()`, embedded as `Option`: `none` is a panic) and insert the
attachment under the key `"heightmap"`.  The freshly created texture
handle is modelled by the entity id; view and sampler handles are
likewise abstract. -/
def init_height_attachment (atlases : List (Nat × GpuNodeAtlas))
    (terrains : List (Nat × TerrainConfig)) : Option (List (Nat × GpuNodeAtlas)) :=
  match terrains with
  | [] => some atlases
  | (entity, config) :: rest =>
    match assocLookup atlases entity with
    | none => none
    | some atlas =>
      init_height_attachment
        (assocInsert atlases entity
          { atlas with
            atlas_attachments :=
              assocInsert atlas.atlas_attachments heightmapKey
                (NodeAttachment.Texture
                  { id := entity, desc := heightTextureDescriptor config }
                  entity entity) })
        rest

/-- Embedding of the body of the inner loop of
`queue_height_attachment_updates` (src/render/height_map.rs lines 90-126)
for one activated node `(index, node_data)`: look up the node's height-map
image (`.unwrap()`), look up the `"heightmap"` attachment (`.unwrap()`);
a `Buffer` attachment is skipped (`continue`), a `Texture` attachment
records one copy from the image's texture to array layer `index` of the
atlas texture with extent `(texture_size, texture_size, 1)`. -/
def copiesForNode (images : Nat → Option Image) (config : TerrainConfig)
    (atlas : GpuNodeAtlas) (entry : Nat × NodeData) : Option (List CopyCommand) := do
  let image ← images entry.2.height_map
  let att ← assocLookup atlas.atlas_attachments heightmapKey
  match att with
  | NodeAttachment.Buffer _ => pure []
  | NodeAttachment.Texture t _ _ =>
    pure [{ src := { texture := image.texture, mip_level := 0
                     origin := { x := 0, y := 0, z := 0 } }
            dst := { texture := t.id, mip_level := 0
                     origin := { x := 0, y := 0, z := entry.1 } }
            extent := { width := config.texture_size
                        height := config.texture_size
                        depth_or_array_layers := 1 } }]

/-- The inner loop of `queue_height_attachment_updates` over a list of
activated nodes of one terrain's atlas. -/
def copiesForNodes (images : Nat → Option Image) (config : TerrainConfig)
    (atlas : GpuNodeAtlas) : List (Nat × NodeData) → Option (List CopyCommand)
  | [] => some []
  | entry :: rest => do
    let cs ← copiesForNode images config atlas entry
    let csRest ← copiesForNodes images config atlas rest
    pure (cs ++ csRest)

/-- The copies recorded for one terrain: the inner loop of
`queue_height_attachment_updates` over `gpu_node_atlas.activated_nodes`. -/
def copiesForAtlas (images : Nat → Option Image) (config : TerrainConfig)
    (atlas : GpuNodeAtlas) : Option (List CopyCommand) :=
  copiesForNodes images config atlas atlas.activated_nodes

/-- Embedding of `queue_height_attachment_updates`
(src/render/height_map.rs lines 78-130): for every terrain entity, look up
its `GpuNodeAtlas` (`.unwrap()`) and record the copies of its activated
nodes; the result is the list of commands submitted to the queue, `none`
standing for a panic. -/
def queue_height_attachment_updates (images : Nat → Option Image)
    (atlases : List (Nat × GpuNodeAtlas))
    (terrains : List (Nat × TerrainConfig)) : Option (List CopyCommand) :=
  match terrains with
  | [] => some []
  | (entity, config) :: rest => do
    let atlas ← assocLookup atlases entity
    let cs ← copiesForAtlas images config atlas
    let csRest ← queue_height_attachment_updates images atlases rest
    pure (cs ++ csRest)

/-- Semantics of one texture-to-texture copy on layer-granularity texture
contents (`contents tex layer` is the abstract content of array layer
`layer` of texture `tex`): layers `[dst.origin.z, dst.origin.z + depth)`
of the destination texture receive the corresponding source layers, all
other layers of all textures are untouched. -/
def applyCopy (contents : Nat → Nat → Nat) (cmd : CopyCommand) : Nat → Nat → Nat :=
  fun tex layer =>
    if tex = cmd.dst.texture ∧ cmd.dst.origin.z ≤ layer ∧
        layer < cmd.dst.origin.z + cmd.extent.depth_or_array_layers then
      contents cmd.src.texture (cmd.src.origin.z + (layer - cmd.dst.origin.z))
    else
      contents tex layer

/-- Modelled from the spec: one atlas slot's lifecycle state
`Free → Loading → Active → (Free)` (spec section 3, `AtlasSlot`); the
`node_atlas` module is not part of the source tree. -/
inductive SlotState where
  | Free
  | Loading (node : NodeId)
  | Active (node : NodeId)
  deriving DecidableEq, Repr

/-- The node resident in a slot, if any (a `Loading` or `Active` slot is
reserved for exactly one node). -/
def slotNode : SlotState → Option NodeId
  | SlotState.Free => none
  | SlotState.Loading n => some n
  | SlotState.Active n => some n

/-- Whether a slot is in the `Active` state. -/
def isActiveSlot : SlotState → Bool
  | SlotState.Active _ => true
  | _ => false

/-- Modelled from the spec: the `NodeAtlas` fixed-capacity slot table
(spec section 3).  `loadsIssued` counts calls to the loader collaborator's
`begin_load` (spec section 6), so that load coalescing is observable. -/
structure NodeAtlas where
  capacity : Nat
  slots : List SlotState
  loadsIssued : Nat
  deriving DecidableEq, Repr

/-- Modelled from the spec: the events driving the atlas state machine:
`request` (spec section 4.1), load completion and load failure reported by
the loader (spec sections 6 and 7), and `release`/eviction. -/
inductive AtlasEvent where
  | request (n : NodeId)
  | loadReady (n : NodeId)
  | loadFailed (n : NodeId)
  | release (n : NodeId)
  deriving DecidableEq, Repr

/-- Index of the first list element satisfying a predicate. -/
def findFirstIdx {α : Type} (p : α → Bool) : List α → Option Nat
  | [] => none
  | x :: xs => if p x then some 0 else (findFirstIdx p xs).map (· + 1)

/-- The slot currently reserved for a node (`Loading` or `Active`), if
any. -/
def findSlotOf (a : NodeAtlas) (n : NodeId) : Option Nat :=
  findFirstIdx (fun s => decide (slotNode s = some n)) a.slots

/-- The first free slot, if any. -/
def findFreeSlot (a : NodeAtlas) : Option Nat :=
  findFirstIdx (fun s => decide (s = SlotState.Free)) a.slots

/-- Modelled from the spec: the atlas load/unload state machine (spec
sections 4.1 and 7).  `request n` is a no-op when a slot is already
reserved for `n` (coalescing while `Loading`, no duplicate work while
`Active`); otherwise it reserves a free slot as `Loading n` and issues one
underlying load; with no free slot it fails with `AtlasExhausted`, a
non-fatal event leaving the state unchanged.  Load completion flips
`Loading n → Active n`; load failure reverts `Loading n → Free`; release
frees an `Active` slot.  Every event is total: no event is fatal. -/
def atlasStep (a : NodeAtlas) : AtlasEvent → NodeAtlas
  | AtlasEvent.request n =>
    if (findSlotOf a n).isSome then a
    else
      match findFreeSlot a with
      | some i =>
        { a with slots := a.slots.set i (SlotState.Loading n)
                 loadsIssued := a.loadsIssued + 1 }
      | none => a
  | AtlasEvent.loadReady n =>
    match findFirstIdx (fun s => decide (s = SlotState.Loading n)) a.slots with
    | some i => { a with slots := a.slots.set i (SlotState.Active n) }
    | none => a
  | AtlasEvent.loadFailed n =>
    match findFirstIdx (fun s => decide (s = SlotState.Loading n)) a.slots with
    | some i => { a with slots := a.slots.set i SlotState.Free }
    | none => a
  | AtlasEvent.release n =>
    match findFirstIdx (fun s => decide (s = SlotState.Active n)) a.slots with
    | some i => { a with slots := a.slots.set i SlotState.Free }
    | none => a

/-- Modelled from the spec: the initial atlas built from the terrain
config (`NodeAtlas::from_config`): capacity is the configured
`node_atlas_size`, every slot free, no load issued yet. -/
def atlasInit (config : TerrainConfig) : NodeAtlas :=
  { capacity := config.node_atlas_size
    slots := List.replicate config.node_atlas_size SlotState.Free
    loadsIssued := 0 }

/-- The atlas states reachable from the initial state of a terrain by the
events of the state machine. -/
inductive ReachableAtlas (config : TerrainConfig) : NodeAtlas → Prop where
  | init : ReachableAtlas config (atlasInit config)
  | step {a : NodeAtlas} (e : AtlasEvent) :
      ReachableAtlas config a → ReachableAtlas config (atlasStep a e)

/-- The resident nodes of an atlas: the nodes its slots are reserved for
(the domain of the spec's `resident` map). -/
def residentNodes (a : NodeAtlas) : List NodeId :=
  a.slots.filterMap slotNode

/-- The slot indices holding `Active` nodes: exactly the indices
`queue_height_attachment_updates` receives as activated-node slot indices
and uses as texture array layers. -/
def activatedIndices (a : NodeAtlas) : List Nat :=
  (List.range a.slots.length).filter
    (fun i => isActiveSlot (a.slots.getD i SlotState.Free))

/-- Modelled from the spec: the node at level `l` of the ancestor chain of
a leaf position.  Positions are given in leaf-node units of a quadtree of
depth `maxLod`; the node covering the position at lod `l` has coordinates
divided by `2 ^ (maxLod - l)` (parent coordinates are the child's halved,
spec section 3). -/
def nodeAt (maxLod : Nat) (p : Nat × Nat) (l : Nat) : NodeId :=
  { lod := l, x := p.1 / 2 ^ (maxLod - l), y := p.2 / 2 ^ (maxLod - l) }

/-- Modelled from the spec: the descending walk of the best-available
query, from level `l` towards the root, returning the first (deepest)
active ancestor of `p`. -/
def queryGo (active : NodeId → Bool) (maxLod : Nat) (p : Nat × Nat) :
    Nat → Option NodeId
  | 0 =>
    if active (nodeAt maxLod p 0) then some (nodeAt maxLod p 0) else none
  | l + 1 =>
    if active (nodeAt maxLod p (l + 1)) then some (nodeAt maxLod p (l + 1))
    else queryGo active maxLod p l

/-- Modelled from the spec: `query(world_pos)` walks the quadtree from the
finest level to the root and returns the deepest currently-active ancestor
node covering the position, or `none` if even the root is unavailable
(spec section 4.2); the `quadtree` module is not part of the source
tree. -/
def query (active : NodeId → Bool) (maxLod : Nat) (p : Nat × Nat) : Option NodeId :=
  queryGo active maxLod p maxLod

/-- The six systems `TerrainPlugin::build` registers in `CoreStage::Last`
(src/lib.rs lines 165-182). -/
inductive TerrainSystem where
  | finish_loading_attachment_from_disk
  | compute_quadtree_request
  | update_node_atlas
  | adjust_quadtree
  | start_loading_attachment_from_disk
  | update_height_under_viewer
  deriving DecidableEq, Repr

/-- All six systems registered in `CoreStage::Last`. -/
def allTerrainSystems : List TerrainSystem :=
  [TerrainSystem.finish_loading_attachment_from_disk,
   TerrainSystem.compute_quadtree_request,
   TerrainSystem.update_node_atlas,
   TerrainSystem.adjust_quadtree,
   TerrainSystem.start_loading_attachment_from_disk,
   TerrainSystem.update_height_under_viewer]

/-- The ordering constraints `TerrainPlugin::build` declares with
`.before(...)`/`.after(...)` in `CoreStage::Last` (src/lib.rs lines
165-182); `(a, b)` means `a` is constrained to run before `b`. -/
def lastStageConstraints : List (TerrainSystem × TerrainSystem) :=
  [(TerrainSystem.finish_loading_attachment_from_disk, TerrainSystem.update_node_atlas),
   (TerrainSystem.compute_quadtree_request, TerrainSystem.update_node_atlas),
   (TerrainSystem.update_node_atlas, TerrainSystem.adjust_quadtree),
   (TerrainSystem.update_node_atlas, TerrainSystem.start_loading_attachment_from_disk),
   (TerrainSystem.adjust_quadtree, TerrainSystem.update_height_under_viewer)]

/-- A sequential execution order the scheduler may pick for the
`CoreStage::Last` systems: it runs each registered system once and
respects every declared `.before`/`.after` constraint. -/
def ValidSchedule (sched : List TerrainSystem) : Prop :=
  (∀ s ∈ allTerrainSystems, s ∈ sched) ∧ sched.Nodup ∧
    ∀ c ∈ lastStageConstraints, sched.indexOf c.1 < sched.indexOf c.2

/-- Normal-runtime-condition check for one terrain entity of
`queue_height_attachment_updates`: its `GpuNodeAtlas` has been registered,
the `"heightmap"` attachment has been inserted (by
`init_height_attachment`) and every activated node's height-map image
asset is present. -/
def terrainReady (images : Nat → Option Image) (atlases : List (Nat × GpuNodeAtlas))
    (entity : Nat) : Bool :=
  match assocLookup atlases entity with
  | none => false
  | some atlas =>
    (assocLookup atlas.atlas_attachments heightmapKey).isSome &&
      atlas.activated_nodes.all (fun entry => (images entry.2.height_map).isSome)

theorem assocLookup_assocInsert {κ α : Type} [DecidableEq κ]
    (m : List (κ × α)) (k k' : κ) (v : α) :
    assocLookup (assocInsert m k v) k' =
      if k = k' then some v else assocLookup m k' := by
  induction m with
  | nil =>
    by_cases h : k = k' <;> simp [assocInsert, assocLookup, h]
  | cons hd tl ih =>
    obtain ⟨k₀, v₀⟩ := hd
    by_cases h₀ : k₀ = k
    · subst h₀
      by_cases h : k₀ = k' <;> simp [assocInsert, assocLookup, h]
    · by_cases h : k₀ = k'
      · subst h
        have hk : ¬ k = k₀ := fun hh => h₀ hh.symm
        simp [assocInsert, assocLookup, h₀, hk]
      · simp [assocInsert, assocLookup, h₀, h, ih]

theorem findFirstIdx_isSome {α : Type} (p : α → Bool) (l : List α) (i : Nat) (x : α)
    (hx : l[i]? = some x) (hp : p x = true) : (findFirstIdx p l).isSome = true := by
  induction l generalizing i with
  | nil => simp at hx
  | cons hd tl ih =>
    by_cases h : p hd
    · simp [findFirstIdx, h]
    · cases i with
      | zero =>
        simp at hx
        subst hx
        exact absurd hp (by simpa using h)
      | succ j =>
        simp at hx
        have := ih j hx
        simp [findFirstIdx, h]
        cases hfi : findFirstIdx p tl with
        | none => rw [hfi] at this; simp at this
        | some m => simp

theorem findFirstIdx_spec {α : Type} (p : α → Bool) (l : List α) :
    ∀ i, findFirstIdx p l = some i → ∃ x, l[i]? = some x ∧ p x = true := by
  induction l with
  | nil => intro i h; simp [findFirstIdx] at h
  | cons hd tl ih =>
    intro i h
    by_cases hp : p hd
    · simp [findFirstIdx, hp] at h
      subst h
      exact ⟨hd, by simp, hp⟩
    · simp [findFirstIdx, hp] at h
      cases hfi : findFirstIdx p tl with
      | none => rw [hfi] at h; simp at h
      | some j =>
        rw [hfi] at h
        simp at h
        obtain ⟨x, hx, hpx⟩ := ih j hfi
        subst h
        exact ⟨x, by simpa using hx, hpx⟩

theorem atlasStep_capacity (a : NodeAtlas) (e : AtlasEvent) :
    (atlasStep a e).capacity = a.capacity := by
  cases e with
  | request n =>
    simp only [atlasStep]
    split
    · rfl
    · split <;> rfl
  | loadReady n => simp only [atlasStep]; split <;> rfl
  | loadFailed n => simp only [atlasStep]; split <;> rfl
  | release n => simp only [atlasStep]; split <;> rfl

theorem atlasStep_loadsIssued_le (a : NodeAtlas) (e : AtlasEvent) :
    a.loadsIssued ≤ (atlasStep a e).loadsIssued := by
  cases e with
  | request n =>
    simp only [atlasStep]
    split
    · exact Nat.le_refl _
    · split
      · exact Nat.le_succ _
      · exact Nat.le_refl _
  | loadReady n => simp only [atlasStep]; split <;> exact Nat.le_refl _
  | loadFailed n => simp only [atlasStep]; split <;> exact Nat.le_refl _
  | release n => simp only [atlasStep]; split <;> exact Nat.le_refl _

theorem atlasStep_slots_length (a : NodeAtlas) (e : AtlasEvent) :
    (atlasStep a e).slots.length = a.slots.length := by
  cases e with
  | request n =>
    simp only [atlasStep]
    split
    · rfl
    · split
      · simp [List.length_set]
      · rfl
  | loadReady n => simp only [atlasStep]; split <;> simp [List.length_set]
  | loadFailed n => simp only [atlasStep]; split <;> simp [List.length_set]
  | release n => simp only [atlasStep]; split <;> simp [List.length_set]

theorem reachable_atlas_shape (config : TerrainConfig) (a : NodeAtlas)
    (h : ReachableAtlas config a) :
    a.capacity = config.node_atlas_size ∧ a.slots.length = a.capacity := by
  induction h with
  | init => simp [atlasInit]
  | step e _ ih =>
    constructor
    · rw [atlasStep_capacity]; exact ih.1
    · rw [atlasStep_slots_length, atlasStep_capacity]; exact ih.2

/-- C1: in every reachable atlas state the number of resident nodes is at
most the configured capacity, and every activated slot index — the value
`queue_height_attachment_updates` uses as a GPU texture array layer — is
strictly below the layer count `init_height_attachment` creates the
height atlas texture with (`node_atlas_size`). -/
theorem atlas_resident_within_capacity (config : TerrainConfig) (a : NodeAtlas)
    (h : ReachableAtlas config a) :
    (residentNodes a).length ≤ a.capacity ∧
      ∀ i ∈ activatedIndices a,
        i < (heightTextureDescriptor config).size.depth_or_array_layers := by
  obtain ⟨hcap, hlen⟩ := reachable_atlas_shape config a h
  constructor
  · calc (residentNodes a).length ≤ a.slots.length := List.length_filterMap_le _ _
      _ = a.capacity := hlen
  · intro i hi
    have hmem : i ∈ List.range a.slots.length := (List.mem_filter.mp hi).1
    have hlt : i < a.slots.length := List.mem_range.mp hmem
    show i < config.node_atlas_size
    rw [← hcap, ← hlen]
    exact hlt

/-- Witness for C1 at a concrete reachable state: a two-slot atlas after
requesting and activating the root node. -/
theorem atlas_resident_within_capacity_witness :
    (residentNodes (atlasStep
        (atlasStep (atlasInit { texture_size := 256, node_atlas_size := 2 })
          (AtlasEvent.request { lod := 0, x := 0, y := 0 }))
        (AtlasEvent.loadReady { lod := 0, x := 0, y := 0 }))).length ≤
      (atlasStep
        (atlasStep (atlasInit { texture_size := 256, node_atlas_size := 2 })
          (AtlasEvent.request { lod := 0, x := 0, y := 0 }))
        (AtlasEvent.loadReady { lod := 0, x := 0, y := 0 })).capacity ∧
    0 < (heightTextureDescriptor
        { texture_size := 256, node_atlas_size := 2 }).size.depth_or_array_layers := by
  have h := atlas_resident_within_capacity { texture_size := 256, node_atlas_size := 2 } _
    (ReachableAtlas.step (AtlasEvent.loadReady { lod := 0, x := 0, y := 0 })
      (ReachableAtlas.step (AtlasEvent.request { lod := 0, x := 0, y := 0 })
        ReachableAtlas.init))
  exact ⟨h.1, h.2 0 (by decide)⟩

/-- C6: a second `request` for a node whose slot is still `Loading` is
coalesced: the whole atlas state — in particular the `loadsIssued` counter
of `begin_load` calls — is unchanged, so exactly one underlying load is
performed per node per residency cycle. -/
theorem request_coalesced_while_loading (a : NodeAtlas) (n : NodeId) (i : Nat)
    (h : a.slots[i]? = some (SlotState.Loading n)) :
    atlasStep a (AtlasEvent.request n) = a := by
  have hs : (findSlotOf a n).isSome = true :=
    findFirstIdx_isSome _ _ i _ h (by simp [slotNode])
  simp [atlasStep, hs]

/-- Witness for C6: requesting an already-loading node in a concrete
two-slot atlas changes nothing. -/
theorem request_coalesced_while_loading_witness :
    atlasStep
      { capacity := 2
        slots := [SlotState.Loading { lod := 1, x := 0, y := 1 }, SlotState.Free]
        loadsIssued := 1 }
      (AtlasEvent.request { lod := 1, x := 0, y := 1 }) =
      { capacity := 2
        slots := [SlotState.Loading { lod := 1, x := 0, y := 1 }, SlotState.Free]
        loadsIssued := 1 } :=
  request_coalesced_while_loading _ _ 0 (by decide)

/-- C9: when the loader reports a failure for node `n` whose unique slot
`i` is `Loading n`, that slot reverts to `Free`, no slot of the resulting
atlas is `Active n`, every other slot is unchanged, and capacity and the
load counter are untouched; `atlasStep` is total, so the failure is not
fatal. -/
theorem load_failure_reverts_to_free (a : NodeAtlas) (n : NodeId) (i : Nat)
    (h : a.slots[i]? = some (SlotState.Loading n))
    (huniq : ∀ (j : Nat) (s : SlotState),
      a.slots[j]? = some s → slotNode s = some n → j = i) :
    (atlasStep a (AtlasEvent.loadFailed n)).slots[i]? = some SlotState.Free ∧
    (∀ j : Nat, (atlasStep a (AtlasEvent.loadFailed n)).slots[j]? ≠
      some (SlotState.Active n)) ∧
    (∀ j : Nat, j ≠ i →
      (atlasStep a (AtlasEvent.loadFailed n)).slots[j]? = a.slots[j]?) ∧
    (atlasStep a (AtlasEvent.loadFailed n)).capacity = a.capacity ∧
    (atlasStep a (AtlasEvent.loadFailed n)).loadsIssued = a.loadsIssued := by
  have hlt : i < a.slots.length := (List.getElem?_eq_some.mp h).1
  have hsome : (findFirstIdx
      (fun s => decide (s = SlotState.Loading n)) a.slots).isSome = true :=
    findFirstIdx_isSome _ _ i _ h (by simp)
  obtain ⟨j, hj⟩ := Option.isSome_iff_exists.mp hsome
  obtain ⟨x, hx, hpx⟩ := findFirstIdx_spec _ _ j hj
  have hxeq : x = SlotState.Loading n := by simpa using hpx
  subst hxeq
  have hji : j = i := huniq j _ hx (by simp [slotNode])
  subst hji
  have hstep : atlasStep a (AtlasEvent.loadFailed n) =
      { a with slots := a.slots.set j SlotState.Free } := by
    simp [atlasStep, hj]
  refine ⟨?_, ?_, ?_, ?_, ?_⟩
  · rw [hstep]
    exact List.getElem?_set_eq_of_lt _ hlt
  · intro m
    rw [hstep]
    by_cases hm : j = m
    · subst hm
      rw [List.getElem?_set_eq_of_lt _ hlt]
      simp
    · rw [List.getElem?_set_ne hm]
      intro hc
      exact hm ((huniq m _ hc (by simp [slotNode])).symm)
  · intro m hm
    rw [hstep]
    exact List.getElem?_set_ne (fun hh => hm hh.symm)
  · rw [hstep]
  · rw [hstep]

/-- Witness for C9: a load failure on a concrete atlas whose slot 1 is
loading node `(1, 1, 0)`. -/
theorem load_failure_reverts_to_free_witness :
    (atlasStep
      { capacity := 2
        slots := [SlotState.Active { lod := 0, x := 0, y := 0 },
                  SlotState.Loading { lod := 1, x := 1, y := 0 }]
        loadsIssued := 2 }
      (AtlasEvent.loadFailed { lod := 1, x := 1, y := 0 })).slots[1]? =
      some SlotState.Free := by
  have h := load_failure_reverts_to_free
    { capacity := 2
      slots := [SlotState.Active { lod := 0, x := 0, y := 0 },
                SlotState.Loading { lod := 1, x := 1, y := 0 }]
      loadsIssued := 2 }
    { lod := 1, x := 1, y := 0 } 1 (by decide)
    (by
      intro j s hj hn
      cases j with
      | zero =>
        simp at hj
        subst hj
        simp [slotNode] at hn
      | succ m =>
        cases m with
        | zero => rfl
        | succ k => simp at hj)
  exact h.1

theorem queryGo_deepest (active : NodeId → Bool) (maxLod : Nat) (p : Nat × Nat)
    (l : Nat) (hact : active (nodeAt maxLod p l) = true) :
    ∀ L, l ≤ L →
      (∀ l', l < l' → l' ≤ L → active (nodeAt maxLod p l') = false) →
      queryGo active maxLod p L = some (nodeAt maxLod p l) := by
  intro L
  induction L with
  | zero =>
    intro hl _
    have : l = 0 := Nat.le_zero.mp hl
    subst this
    simp [queryGo, hact]
  | succ L ih =>
    intro hl hdeep
    by_cases hL : l = L + 1
    · subst hL
      simp [queryGo, hact]
    · have hlL : l ≤ L := Nat.lt_succ_iff.mp (lt_of_le_of_ne hl hL)
      have hfalse : active (nodeAt maxLod p (L + 1)) = false :=
        hdeep (L + 1) (Nat.lt_succ_of_le hlL) (Nat.le_refl _)
      simp [queryGo, hfalse]
      exact ih hlL (fun l' h1 h2 => hdeep l' h1 (Nat.le_succ_of_le h2))

/-- C5: if `l` is the deepest level at or above which an ancestor of
position `p` is active, the best-available query returns exactly that
ancestor — never `none` while any ancestor is active. -/
theorem query_deepest_active_ancestor (active : NodeId → Bool) (maxLod : Nat)
    (p : Nat × Nat) (l : Nat) (hl : l ≤ maxLod)
    (hact : active (nodeAt maxLod p l) = true)
    (hdeep : ∀ l', l < l' → l' ≤ maxLod → active (nodeAt maxLod p l') = false) :
    query active maxLod p = some (nodeAt maxLod p l) :=
  queryGo_deepest active maxLod p l hact maxLod hl hdeep

/-- Witness for C5: with only the root active in a depth-2 quadtree, the
query at position `(3, 1)` returns the root node. -/
theorem query_deepest_active_ancestor_witness :
    query (fun n => decide (n.lod = 0)) 2 (3, 1) = some { lod := 0, x := 0, y := 0 } := by
  have h := query_deepest_active_ancestor (fun n => decide (n.lod = 0)) 2 (3, 1) 0
    (by decide) (by decide)
    (by
      intro l' h1 h2
      interval_cases l' <;> rfl)
  exact h

/-- C3: every execution order the scheduler may pick for the systems
registered by `TerrainPlugin::build` in `CoreStage::Last` runs
`compute_quadtree_request` before `update_node_atlas`, `adjust_quadtree`
and `start_loading_attachment_from_disk` after `update_node_atlas`, and
`update_height_under_viewer` after `adjust_quadtree`. -/
theorem terrain_systems_order (sched : List TerrainSystem) (h : ValidSchedule sched) :
    sched.indexOf TerrainSystem.compute_quadtree_request <
      sched.indexOf TerrainSystem.update_node_atlas ∧
    sched.indexOf TerrainSystem.update_node_atlas <
      sched.indexOf TerrainSystem.adjust_quadtree ∧
    sched.indexOf TerrainSystem.update_node_atlas <
      sched.indexOf TerrainSystem.start_loading_attachment_from_disk ∧
    sched.indexOf TerrainSystem.adjust_quadtree <
      sched.indexOf TerrainSystem.update_height_under_viewer :=
  ⟨h.2.2 (TerrainSystem.compute_quadtree_request, TerrainSystem.update_node_atlas)
      (by decide),
   h.2.2 (TerrainSystem.update_node_atlas, TerrainSystem.adjust_quadtree)
      (by decide),
   h.2.2 (TerrainSystem.update_node_atlas,
      TerrainSystem.start_loading_attachment_from_disk) (by decide),
   h.2.2 (TerrainSystem.adjust_quadtree, TerrainSystem.update_height_under_viewer)
      (by decide)⟩

/-- Witness for C3 at a concrete valid schedule. -/
theorem terrain_systems_order_witness :
    [TerrainSystem.finish_loading_attachment_from_disk,
     TerrainSystem.compute_quadtree_request,
     TerrainSystem.update_node_atlas,
     TerrainSystem.adjust_quadtree,
     TerrainSystem.start_loading_attachment_from_disk,
     TerrainSystem.update_height_under_viewer].indexOf
        TerrainSystem.compute_quadtree_request <
      [TerrainSystem.finish_loading_attachment_from_disk,
       TerrainSystem.compute_quadtree_request,
       TerrainSystem.update_node_atlas,
       TerrainSystem.adjust_quadtree,
       TerrainSystem.start_loading_attachment_from_disk,
       TerrainSystem.update_height_under_viewer].indexOf
        TerrainSystem.update_node_atlas :=
  (terrain_systems_order _ (by
    refine ⟨by decide, by decide, by decide⟩)).1

/-- C4 counterexample: a schedule satisfying every constraint registered
by `TerrainPlugin::build` in which `compute_quadtree_request` runs before
`finish_loading_attachment_from_disk` — the claim that every possible
scheduling applies load completion before demand computation is false. -/
theorem finish_before_compute_counterexample :
    ValidSchedule
      [TerrainSystem.compute_quadtree_request,
       TerrainSystem.finish_loading_attachment_from_disk,
       TerrainSystem.update_node_atlas,
       TerrainSystem.adjust_quadtree,
       TerrainSystem.start_loading_attachment_from_disk,
       TerrainSystem.update_height_under_viewer] ∧
    ¬ ([TerrainSystem.compute_quadtree_request,
        TerrainSystem.finish_loading_attachment_from_disk,
        TerrainSystem.update_node_atlas,
        TerrainSystem.adjust_quadtree,
        TerrainSystem.start_loading_attachment_from_disk,
        TerrainSystem.update_height_under_viewer].indexOf
          TerrainSystem.finish_loading_attachment_from_disk <
        [TerrainSystem.compute_quadtree_request,
         TerrainSystem.finish_loading_attachment_from_disk,
         TerrainSystem.update_node_atlas,
         TerrainSystem.adjust_quadtree,
         TerrainSystem.start_loading_attachment_from_disk,
         TerrainSystem.update_height_under_viewer].indexOf
          TerrainSystem.compute_quadtree_request) := by
  refine ⟨⟨by decide, by decide, by decide⟩, by decide⟩

/-- C4 (amended): in every valid schedule,
`finish_loading_attachment_from_disk` is applied before
`update_node_atlas`, the system that diffs demand against residency and
issues requests — but it is unordered relative to
`compute_quadtree_request`. -/
theorem finish_before_update_node_atlas (sched : List TerrainSystem)
    (h : ValidSchedule sched) :
    sched.indexOf TerrainSystem.finish_loading_attachment_from_disk <
      sched.indexOf TerrainSystem.update_node_atlas :=
  h.2.2 (TerrainSystem.finish_loading_attachment_from_disk,
    TerrainSystem.update_node_atlas) (by decide)

/-- Witness for the amended C4 at a concrete valid schedule. -/
theorem finish_before_update_node_atlas_witness :
    [TerrainSystem.compute_quadtree_request,
     TerrainSystem.finish_loading_attachment_from_disk,
     TerrainSystem.update_node_atlas,
     TerrainSystem.adjust_quadtree,
     TerrainSystem.start_loading_attachment_from_disk,
     TerrainSystem.update_height_under_viewer].indexOf
        TerrainSystem.finish_loading_attachment_from_disk <
      [TerrainSystem.compute_quadtree_request,
       TerrainSystem.finish_loading_attachment_from_disk,
       TerrainSystem.update_node_atlas,
       TerrainSystem.adjust_quadtree,
       TerrainSystem.start_loading_attachment_from_disk,
       TerrainSystem.update_height_under_viewer].indexOf
        TerrainSystem.update_node_atlas :=
  finish_before_update_node_atlas _ ⟨by decide, by decide, by decide⟩

/-- C7 counterexample: for an attachment descriptor configuring format
`R8Unorm` and 4 mip levels, the texture `init_height_attachment` creates
does not take format or mip level count from the descriptor — they are
hard-coded to `R16Unorm` and 1 in the source. -/
theorem height_texture_ignores_descriptor :
    ¬ ((heightTextureDescriptor { texture_size := 512, node_atlas_size := 8 }).format =
        (AttachmentConfig.mk heightmapKey 512 2 TextureFormat.R8Unorm 4
          AttachmentStorage.Disk).format ∧
       (heightTextureDescriptor
          { texture_size := 512, node_atlas_size := 8 }).mip_level_count =
        (AttachmentConfig.mk heightmapKey 512 2 TextureFormat.R8Unorm 4
          AttachmentStorage.Disk).mip_levels) := by
  decide

/-- C7 (amended): for every terrain configuration, `init_height_attachment`
inserts a height attachment whose texture was created with width and
height equal to the configured `texture_size`, while the format is always
`R16Unorm` and the mip level count always 1, independent of any attachment
descriptor. -/
theorem init_height_texture_fields (atlases : List (Nat × GpuNodeAtlas))
    (entity : Nat) (config : TerrainConfig) (atlas : GpuNodeAtlas)
    (h : assocLookup atlases entity = some atlas) :
    (init_height_attachment atlases [(entity, config)]).bind
        (fun result => (assocLookup result entity).bind
          (fun a => assocLookup a.atlas_attachments heightmapKey)) =
      some (NodeAttachment.Texture
        { id := entity, desc := heightTextureDescriptor config } entity entity) ∧
    (heightTextureDescriptor config).size.width = config.texture_size ∧
    (heightTextureDescriptor config).size.height = config.texture_size ∧
    (heightTextureDescriptor config).format = TextureFormat.R16Unorm ∧
    (heightTextureDescriptor config).mip_level_count = 1 := by
  refine ⟨?_, rfl, rfl, rfl, rfl⟩
  simp [init_height_attachment, h, assocLookup_assocInsert]

/-- Witness for the amended C7 at a concrete one-terrain world. -/
theorem init_height_texture_fields_witness :
    (init_height_attachment [(0, { atlas_attachments := [], activated_nodes := [] })]
        [(0, { texture_size := 512, node_atlas_size := 8 })]).bind
        (fun result => (assocLookup result 0).bind
          (fun a => assocLookup a.atlas_attachments heightmapKey)) =
      some (NodeAttachment.Texture
        { id := 0
          desc := heightTextureDescriptor { texture_size := 512, node_atlas_size := 8 } }
        0 0) :=
  (init_height_texture_fields [(0, { atlas_attachments := [], activated_nodes := [] })]
    0 { texture_size := 512, node_atlas_size := 8 }
    { atlas_attachments := [], activated_nodes := [] } (by decide)).1

theorem init_height_attachment_isSome (atlases : List (Nat × GpuNodeAtlas))
    (terrains : List (Nat × TerrainConfig))
    (h : ∀ ec ∈ terrains, (assocLookup atlases ec.1).isSome = true) :
    (init_height_attachment atlases terrains).isSome = true := by
  induction terrains generalizing atlases with
  | nil => simp [init_height_attachment]
  | cons hd tl ih =>
    obtain ⟨entity, config⟩ := hd
    have h0 : (assocLookup atlases entity).isSome = true :=
      h _ (List.mem_cons_self _ _)
    obtain ⟨atlas, hat⟩ := Option.isSome_iff_exists.mp h0
    rw [init_height_attachment, hat]
    apply ih
    intro ec hec
    rw [assocLookup_assocInsert]
    by_cases he : entity = ec.1
    · simp [he]
    · simp only [he, if_false]
      exact h ec (List.mem_cons_of_mem _ hec)

theorem copiesForNodes_isSome (images : Nat → Option Image) (config : TerrainConfig)
    (atlas : GpuNodeAtlas) (nodes : List (Nat × NodeData))
    (hatt : (assocLookup atlas.atlas_attachments heightmapKey).isSome = true)
    (himg : ∀ entry ∈ nodes, (images entry.2.height_map).isSome = true) :
    (copiesForNodes images config atlas nodes).isSome = true := by
  induction nodes with
  | nil => simp [copiesForNodes]
  | cons hd tl ih =>
    obtain ⟨img, him⟩ := Option.isSome_iff_exists.mp (himg hd (List.mem_cons_self _ _))
    obtain ⟨att, hat⟩ := Option.isSome_iff_exists.mp hatt
    have hnode : (copiesForNode images config atlas hd).isSome = true := by
      cases att <;> simp [copiesForNode, him, hat]
    obtain ⟨cs, hcs⟩ := Option.isSome_iff_exists.mp hnode
    obtain ⟨csR, hcsR⟩ := Option.isSome_iff_exists.mp
      (ih (fun e he => himg e (List.mem_cons_of_mem _ he)))
    simp [copiesForNodes, hcs, hcsR]

theorem queue_height_attachment_updates_isSome (images : Nat → Option Image)
    (atlases : List (Nat × GpuNodeAtlas)) (terrains : List (Nat × TerrainConfig))
    (h : ∀ ec ∈ terrains, terrainReady images atlases ec.1 = true) :
    (queue_height_attachment_updates images atlases terrains).isSome = true := by
  induction terrains with
  | nil => simp [queue_height_attachment_updates]
  | cons hd tl ih =>
    obtain ⟨entity, config⟩ := hd
    have h0 := h _ (List.mem_cons_self _ _)
    unfold terrainReady at h0
    cases hat : assocLookup atlases entity with
    | none => rw [hat] at h0; simp at h0
    | some atlas =>
      rw [hat] at h0
      simp only [Bool.and_eq_true] at h0
      obtain ⟨hattS, hallS⟩ := h0
      have hc : (copiesForAtlas images config atlas).isSome = true := by
        unfold copiesForAtlas
        exact copiesForNodes_isSome images config atlas atlas.activated_nodes hattS
          (fun e he => List.all_eq_true.mp hallS e he)
      obtain ⟨cs, hcs⟩ := Option.isSome_iff_exists.mp hc
      obtain ⟨csR, hcsR⟩ := Option.isSome_iff_exists.mp
        (ih (fun e he => h e (List.mem_cons_of_mem _ he)))
      simp [queue_height_attachment_updates, hat, hcs, hcsR]

/-- C2: under normal runtime conditions — every terrain entity's
`GpuNodeAtlas` is registered before the prepare phase, and at queue time
the `"heightmap"` attachment has been inserted and every activated node's
height-map image is present — both `init_height_attachment` and
`queue_height_attachment_updates` complete without panicking: every
embedded `.unwrap()` is on a present value, so neither function returns
`none`. -/
theorem height_systems_no_panic (images : Nat → Option Image)
    (atlases : List (Nat × GpuNodeAtlas))
    (initTerrains runTerrains : List (Nat × TerrainConfig))
    (hinit : ∀ ec ∈ initTerrains, (assocLookup atlases ec.1).isSome = true)
    (hrun : ∀ ec ∈ runTerrains, terrainReady images atlases ec.1 = true) :
    (init_height_attachment atlases initTerrains).isSome = true ∧
    (queue_height_attachment_updates images atlases runTerrains).isSome = true :=
  ⟨init_height_attachment_isSome atlases initTerrains hinit,
   queue_height_attachment_updates_isSome images atlases runTerrains hrun⟩

/-- Witness for C2 at a concrete one-terrain world whose atlas, attachment
and image are all present. -/
theorem height_systems_no_panic_witness :
    (init_height_attachment
        [(0, { atlas_attachments :=
                 [(heightmapKey, NodeAttachment.Texture
                    { id := 0
                      desc := heightTextureDescriptor
                        { texture_size := 128, node_atlas_size := 4 } } 0 0)]
               activated_nodes := [(0, { height_map := 5 })] })]
        [(0, { texture_size := 128, node_atlas_size := 4 })]).isSome = true ∧
    (queue_height_attachment_updates
        (fun h => if h = 5 then some { texture := 9 } else none)
        [(0, { atlas_attachments :=
                 [(heightmapKey, NodeAttachment.Texture
                    { id := 0
                      desc := heightTextureDescriptor
                        { texture_size := 128, node_atlas_size := 4 } } 0 0)]
               activated_nodes := [(0, { height_map := 5 })] })]
        [(0, { texture_size := 128, node_atlas_size := 4 })]).isSome = true :=
  height_systems_no_panic
    (fun h => if h = 5 then some { texture := 9 } else none)
    [(0, { atlas_attachments :=
             [(heightmapKey, NodeAttachment.Texture
                { id := 0
                  desc := heightTextureDescriptor
                    { texture_size := 128, node_atlas_size := 4 } } 0 0)]
           activated_nodes := [(0, { height_map := 5 })] })]
    [(0, { texture_size := 128, node_atlas_size := 4 })]
    [(0, { texture_size := 128, node_atlas_size := 4 })]
    (by decide) (by decide)

/-- C8: uploading an activated node with slot index `i` records exactly
one copy, targeting array layer `i` of the heightmap atlas texture at mip
level 0 with the configured `texture_size` extent and depth 1, and
applying that copy leaves every other layer of every texture unchanged. -/
theorem copy_targets_single_layer (images : Nat → Option Image)
    (config : TerrainConfig) (atlas : GpuNodeAtlas) (i : Nat) (nd : NodeData)
    (t : GpuTexture) (v s : Nat) (img : Image)
    (hatt : assocLookup atlas.atlas_attachments heightmapKey =
      some (NodeAttachment.Texture t v s))
    (himg : images nd.height_map = some img) :
    copiesForNode images config atlas (i, nd) =
      some [{ src := { texture := img.texture, mip_level := 0
                       origin := { x := 0, y := 0, z := 0 } }
              dst := { texture := t.id, mip_level := 0
                       origin := { x := 0, y := 0, z := i } }
              extent := { width := config.texture_size
                          height := config.texture_size
                          depth_or_array_layers := 1 } }] ∧
    ∀ (contents : Nat → Nat → Nat) (tex layer : Nat),
      ¬ (tex = t.id ∧ layer = i) →
      applyCopy contents
        { src := { texture := img.texture, mip_level := 0
                   origin := { x := 0, y := 0, z := 0 } }
          dst := { texture := t.id, mip_level := 0
                   origin := { x := 0, y := 0, z := i } }
          extent := { width := config.texture_size
                      height := config.texture_size
                      depth_or_array_layers := 1 } } tex layer =
        contents tex layer := by
  constructor
  · simp [copiesForNode, himg, hatt]
  · intro contents tex layer hne
    unfold applyCopy
    rw [if_neg]
    rintro ⟨h1, h2, h3⟩
    exact hne ⟨h1, Nat.le_antisymm (Nat.lt_succ_iff.mp h3) h2⟩

/-- Witness for C8: the copy recorded for a concrete activated node at
slot index 2. -/
theorem copy_targets_single_layer_witness :
    copiesForNode (fun h => if h = 5 then some { texture := 9 } else none)
      { texture_size := 128, node_atlas_size := 4 }
      { atlas_attachments :=
          [(heightmapKey, NodeAttachment.Texture
             { id := 3
               desc := heightTextureDescriptor
                 { texture_size := 128, node_atlas_size := 4 } } 1 2)]
        activated_nodes := [] }
      (2, { height_map := 5 }) =
      some [{ src := { texture := 9, mip_level := 0
                       origin := { x := 0, y := 0, z := 0 } }
              dst := { texture := 3, mip_level := 0
                       origin := { x := 0, y := 0, z := 2 } }
              extent := { width := 128, height := 128
                          depth_or_array_layers := 1 } }] :=
  (copy_targets_single_layer (fun h => if h = 5 then some { texture := 9 } else none)
    { texture_size := 128, node_atlas_size := 4 }
    { atlas_attachments :=
        [(heightmapKey, NodeAttachment.Texture
           { id := 3
             desc := heightTextureDescriptor
               { texture_size := 128, node_atlas_size := 4 } } 1 2)]
      activated_nodes := [] }
    2 { height_map := 5 }
    { id := 3
      desc := heightTextureDescriptor { texture_size := 128, node_atlas_size := 4 } }
    1 2 { texture := 9 } (by decide) (by decide)).1

theorem copiesForNodes_buffer (images : Nat → Option Image)
    (config : TerrainConfig) (atlas : GpuNodeAtlas) (buf : Nat)
    (hatt : assocLookup atlas.atlas_attachments heightmapKey =
      some (NodeAttachment.Buffer buf)) :
    ∀ nodes : List (Nat × NodeData),
      (∀ entry ∈ nodes, (images entry.2.height_map).isSome = true) →
      copiesForNodes images config atlas nodes = some [] := by
  intro nodes himg
  induction nodes with
  | nil => simp [copiesForNodes]
  | cons hd tl ih =>
    obtain ⟨img, hi⟩ := Option.isSome_iff_exists.mp (himg hd (List.mem_cons_self _ _))
    have hnode : copiesForNode images config atlas hd = some [] := by
      simp [copiesForNode, hi, hatt]
    have htl := ih (fun e he => himg e (List.mem_cons_of_mem _ he))
    simp [copiesForNodes, hnode, htl]

/-- C10: for a terrain whose `"heightmap"` atlas attachment is the
`Buffer` variant, `queue_height_attachment_updates` records no copy for
any of that terrain's activated nodes — each is skipped silently (no
panic), so the terrain's GPU attachment state is unchanged. -/
theorem buffer_attachment_skips_copies (images : Nat → Option Image)
    (config : TerrainConfig) (atlas : GpuNodeAtlas) (buf : Nat)
    (hatt : assocLookup atlas.atlas_attachments heightmapKey =
      some (NodeAttachment.Buffer buf))
    (himg : ∀ entry ∈ atlas.activated_nodes,
      (images entry.2.height_map).isSome = true) :
    copiesForAtlas images config atlas = some [] := by
  unfold copiesForAtlas
  exact copiesForNodes_buffer images config atlas buf hatt atlas.activated_nodes himg

/-- Witness for C10: a concrete terrain with a `Buffer` heightmap
attachment and two activated nodes records no copies. -/
theorem buffer_attachment_skips_copies_witness :
    copiesForAtlas (fun h => if h ≤ 6 then some { texture := h } else none)
      { texture_size := 128, node_atlas_size := 4 }
      { atlas_attachments := [(heightmapKey, NodeAttachment.Buffer 7)]
        activated_nodes := [(0, { height_map := 5 }), (1, { height_map := 6 })] } =
      some [] :=
  buffer_attachment_skips_copies
    (fun h => if h ≤ 6 then some { texture := h } else none)
    { texture_size := 128, node_atlas_size := 4 }
    { atlas_attachments := [(heightmapKey, NodeAttachment.Buffer 7)]
      activated_nodes := [(0, { height_map := 5 }), (1, { height_map := 6 })] }
    7 (by decide) (by decide)
